import Mathlib

/-!
Verification of the weather-monitoring app `streamlit_app.py`.

Pure logic (alert classifier, weather-code table, suggestion formatting,
image-URL construction) is embedded directly; network calls are modelled
by an explicit outcome parameter (the response the HTTP layer would have
delivered), and `st.error` side effects as a returned list of messages.
Temperatures and wind speeds are modelled as rationals: the Python code
only compares them against integer thresholds with `<` and `>`.
-/

/-- Alert severity tiers: Normal, Warning, Critical (spec data model). -/
inductive AlertTier where
  | Normal
  | Warning
  | Critical
deriving DecidableEq, Repr

/-- The fixed tier-to-visual mapping: Critical=red/🔴, Warning=yellow/🟡,
Normal=green/🟢. -/
def tierVisual : AlertTier → String × String
  | .Critical => ("🔴 Critical", "red")
  | .Warning => ("🟡 Warning", "yellow")
  | .Normal => ("🟢 Normal", "green")

/-- Embedding of `get_alert_status` (streamlit_app.py lines 54-59):
two chained `if`s over disjunctions of threshold comparisons. -/
def get_alert_status (temp wind_speed : ℚ) : String × String :=
  if temp < -10 ∨ temp > 40 ∨ wind_speed > 20 then ("🔴 Critical", "red")
  else if temp < 0 ∨ temp > 35 ∨ wind_speed > 15 then ("🟡 Warning", "yellow")
  else ("🟢 Normal", "green")

/-- Embedding of `get_alert_message` (streamlit_app.py lines 61-74):
seven sequential rules, first match wins. -/
def get_alert_message (temp wind_speed : ℚ) : String :=
  if temp < -10 then "Extreme cold conditions - Exercise caution"
  else if temp > 40 then "Extreme heat conditions - Limit exposure"
  else if wind_speed > 20 then "High wind speeds - Operations may be affected"
  else if temp < 0 then "Cold conditions - Take necessary precautions"
  else if temp > 35 then "Hot conditions - Stay hydrated"
  else if wind_speed > 15 then "Moderate wind speeds - Monitor conditions"
  else "Normal operating conditions"

/-- The severity tier of the first matching rule of `get_alert_message`:
the same six conditions in the same order, recording only which block
(Critical rules 1-3, Warning rules 4-6, otherwise Normal) fired. -/
def messageTier (temp wind_speed : ℚ) : AlertTier :=
  if temp < -10 then .Critical
  else if temp > 40 then .Critical
  else if wind_speed > 20 then .Critical
  else if temp < 0 then .Warning
  else if temp > 35 then .Warning
  else if wind_speed > 15 then .Warning
  else .Normal

/-- Spec-side definition, transcribed from the specification's §4.2
decision list (seven numbered rules, first match wins, evaluated
top-to-bottom): `classify` returns the tier and the advisory message.
This is written from the spec's words, to be compared against the
source-side `get_alert_status` and `get_alert_message`. -/
def classifySpec (temperature wind_speed : ℚ) : AlertTier × String :=
  if temperature < -10 then (.Critical, "Extreme cold conditions - Exercise caution")
  else if temperature > 40 then (.Critical, "Extreme heat conditions - Limit exposure")
  else if wind_speed > 20 then (.Critical, "High wind speeds - Operations may be affected")
  else if temperature < 0 then (.Warning, "Cold conditions - Take necessary precautions")
  else if temperature > 35 then (.Warning, "Hot conditions - Stay hydrated")
  else if wind_speed > 15 then (.Warning, "Moderate wind speeds - Monitor conditions")
  else (.Normal, "Normal operating conditions")

/-- Claim C1: for every (temperature, wind_speed), the code's alert
classification agrees with the spec's seven-rule decision order with
first match winning: `get_alert_message` returns exactly the spec
rule's message, `get_alert_status` returns exactly the visual of the
spec rule's tier, and in particular whenever t < -10 the status is
Critical regardless of w. -/
theorem C1_decision_order (t w : ℚ) :
    get_alert_message t w = (classifySpec t w).2 ∧
    get_alert_status t w = tierVisual (classifySpec t w).1 ∧
    (t < -10 → get_alert_status t w = ("🔴 Critical", "red")) := by
  by_cases h1 : t < -10 <;> by_cases h2 : t > 40 <;> by_cases h3 : w > 20 <;>
    by_cases h4 : t < 0 <;> by_cases h5 : t > 35 <;> by_cases h6 : w > 15 <;>
    simp [get_alert_message, get_alert_status, classifySpec, tierVisual,
      h1, h2, h3, h4, h5, h6]

/-- Witness for C1 at the concrete input t = -15, w = 3 (the implication
hypothesis t < -10 is discharged there). -/
theorem C1_decision_order_witness :
    get_alert_message (-15) 3 = (classifySpec (-15) 3).2 ∧
    get_alert_status (-15) 3 = ("🔴 Critical", "red") := by
  have h := C1_decision_order (-15) 3
  exact ⟨h.1, h.2.2 (by norm_num)⟩

/-- Claim C2: the two separately implemented functions are consistent:
`get_alert_status` returns ("🔴 Critical", "red") exactly when the
first matching message rule is one of the three Critical rules,
("🟡 Warning", "yellow") exactly when it is one of the three Warning
rules, and ("🟢 Normal", "green") exactly when the otherwise-rule
applies, matching the fixed tier-to-visual mapping. -/
theorem C2_status_message_consistent (t w : ℚ) :
    get_alert_status t w = tierVisual (messageTier t w) ∧
    (get_alert_status t w = ("🔴 Critical", "red") ↔ messageTier t w = .Critical) ∧
    (get_alert_status t w = ("🟡 Warning", "yellow") ↔ messageTier t w = .Warning) ∧
    (get_alert_status t w = ("🟢 Normal", "green") ↔ messageTier t w = .Normal) := by
  by_cases h1 : t < -10 <;> by_cases h2 : t > 40 <;> by_cases h3 : w > 20 <;>
    by_cases h4 : t < 0 <;> by_cases h5 : t > 35 <;> by_cases h6 : w > 15 <;>
    simp [get_alert_status, messageTier, tierVisual, h1, h2, h3, h4, h5, h6]

/-- Claim C4: inside all the Critical bounds and matching no Warning
condition (0 ≤ t ≤ 35 and w ≤ 15, hence also -10 ≤ t ≤ 40 and w ≤ 20),
the classifier returns the Normal tier with the Normal message. -/
theorem C4_normal_region (t w : ℚ)
    (hlo : -10 ≤ t) (hhi : t ≤ 40) (hw20 : w ≤ 20)
    (h0 : 0 ≤ t) (h35 : t ≤ 35) (h15 : w ≤ 15) :
    get_alert_status t w = ("🟢 Normal", "green") ∧
    get_alert_message t w = "Normal operating conditions" := by
  have n1 : ¬ t < -10 := by linarith
  have n2 : ¬ t > 40 := by linarith
  have n3 : ¬ w > 20 := by linarith
  have n4 : ¬ t < 0 := by linarith
  have n5 : ¬ t > 35 := by linarith
  have n6 : ¬ w > 15 := by linarith
  simp [get_alert_status, get_alert_message, n1, n2, n3, n4, n5, n6]

/-- Witness for C4 at the concrete input t = 20, w = 10. -/
theorem C4_normal_region_witness :
    get_alert_status 20 10 = ("🟢 Normal", "green") ∧
    get_alert_message 20 10 = "Normal operating conditions" :=
  C4_normal_region 20 10 (by norm_num) (by norm_num) (by norm_num)
    (by norm_num) (by norm_num) (by norm_num)

/-- Claim C5: boundary behaviour. Temperature exactly -10 never triggers
the cold-Critical rule (strict <) and temperature exactly 40 never
triggers the heat-Critical rule (strict >): at those temperatures both
classifier functions are decided entirely by the remaining rules —
the wind-Critical rule when w > 20, otherwise the cold-Warning rule at
t = -10 and the hot-Warning rule at t = 40. -/
theorem C5_boundaries (w : ℚ) :
    get_alert_message (-10) w =
      (if w > 20 then "High wind speeds - Operations may be affected"
       else "Cold conditions - Take necessary precautions") ∧
    get_alert_message 40 w =
      (if w > 20 then "High wind speeds - Operations may be affected"
       else "Hot conditions - Stay hydrated") ∧
    get_alert_status (-10) w =
      (if w > 20 then ("🔴 Critical", "red") else ("🟡 Warning", "yellow")) ∧
    get_alert_status 40 w =
      (if w > 20 then ("🔴 Critical", "red") else ("🟡 Warning", "yellow")) := by
  by_cases h : w > 20 <;>
    norm_num [get_alert_message, get_alert_status, h]

/-- Embedding of the `WEATHER_CODES` dict (streamlit_app.py lines 24-49)
as an association list from integer weather code to description. -/
def WEATHER_CODES : List (Int × String) :=
  [(0, "Clear sky"),
   (1, "Mainly clear"),
   (2, "Partly cloudy"),
   (3, "Overcast"),
   (45, "Foggy"),
   (48, "Depositing rime fog"),
   (51, "Light drizzle"),
   (53, "Moderate drizzle"),
   (55, "Dense drizzle"),
   (61, "Slight rain"),
   (63, "Moderate rain"),
   (65, "Heavy rain"),
   (71, "Slight snow"),
   (73, "Moderate snow"),
   (75, "Heavy snow"),
   (77, "Snow grains"),
   (80, "Slight rain showers"),
   (81, "Moderate rain showers"),
   (82, "Violent rainstorm"),
   (85, "Slight snow showers"),
   (86, "Heavy snow showers"),
   (95, "Thunderstorm"),
   (96, "Thunderstorm with slight hail"),
   (99, "Thunderstorm with heavy hail")]

/-- Embedding of `get_weather_description` (streamlit_app.py lines 51-52):
`WEATHER_CODES.get(code, 'Unknown')`. -/
def get_weather_description (code : Int) : String :=
  (WEATHER_CODES.lookup code).getD "Unknown"

/-- Looking a key up in an association list whose pair is a member and
whose keys are pairwise distinct finds exactly the stored value. -/
theorem lookup_of_mem {α β : Type} [BEq α] [LawfulBEq α] :
    ∀ (l : List (α × β)), (l.map Prod.fst).Nodup →
      ∀ (a : α) (b : β), (a, b) ∈ l → l.lookup a = some b := by
  intro l
  induction l with
  | nil => intro _ a b h; cases h
  | cons p l ih =>
    intro hnd a b h
    rw [List.mem_cons] at h
    rcases h with h | h
    · rw [← h]
      simp [List.lookup]
    · have hne : a ≠ p.1 := by
        rintro rfl
        exact (List.nodup_cons.mp hnd).1
          (List.mem_map.mpr ⟨(p.1, b), h, rfl⟩)
      have hb : (a == p.1) = false := beq_eq_false_iff_ne.mpr hne
      rw [show p = (p.1, p.2) from rfl, List.lookup, hb]
      exact ih (List.nodup_cons.mp hnd).2 a b h

/-- Looking up a key that appears in no pair of an association list
finds nothing. -/
theorem lookup_of_not_mem {α β : Type} [BEq α] [LawfulBEq α] :
    ∀ (l : List (α × β)) (a : α), a ∉ l.map Prod.fst → l.lookup a = none := by
  intro l
  induction l with
  | nil => intro a _; rfl
  | cons p l ih =>
    intro a h
    have hne : a ≠ p.1 := fun he => h (by simp [he])
    have hb : (a == p.1) = false := beq_eq_false_iff_ne.mpr hne
    rw [show p = (p.1, p.2) from rfl, List.lookup, hb]
    exact ih a (fun hm => h (by simp at hm ⊢; exact Or.inr hm))

/-- Counterexample to claim C3 as stated: the fixed table does not have
29 entries (it has 24). -/
theorem C3_table_size_cex : ¬ (WEATHER_CODES.length = 29) := by decide

/-- Claim C3 (amended: the table has 24 entries, not 29— the rest of
the claim holds): `get_weather_description` is total over all integers;
every code stored in the table maps to its documented label, and every
integer not a key of the table — negative numbers included — maps to
the literal string "Unknown". -/
theorem C3_describe_total :
    WEATHER_CODES.length = 24 ∧
    ∀ code : Int,
      (∀ s : String, (code, s) ∈ WEATHER_CODES → get_weather_description code = s) ∧
      (code ∉ WEATHER_CODES.map Prod.fst → get_weather_description code = "Unknown") := by
  refine ⟨by decide, fun code => ⟨fun s hs => ?_, fun hn => ?_⟩⟩
  · have hnd : (WEATHER_CODES.map Prod.fst).Nodup := by decide
    unfold get_weather_description
    rw [lookup_of_mem WEATHER_CODES hnd code s hs]
    rfl
  · unfold get_weather_description
    rw [lookup_of_not_mem WEATHER_CODES code hn]
    rfl

/-- Witness for C3 at the concrete codes 71 (in the table, documented as
"Slight snow") and -1 (not in the table). -/
theorem C3_describe_total_witness :
    get_weather_description 71 = "Slight snow" ∧
    get_weather_description (-1) = "Unknown" :=
  ⟨(C3_describe_total.2 71).1 "Slight snow" (by decide),
   (C3_describe_total.2 (-1)).2 (by decide)⟩

/-- The `current` block of an open-meteo forecast response, the fields
`weather_card` reads (streamlit_app.py lines 102-106). -/
structure CurrentWeather where
  temperature_2m : ℚ
  relative_humidity_2m : ℚ
  wind_speed_10m : ℚ
  weather_code : Int

/-- A parsed weather response: the object holding the `current` block. -/
structure WeatherData where
  current : CurrentWeather

/-- Outcome of the single weather HTTP request plus JSON parse, as the
`try` block of `fetch_weather_data` observes it: either a parsed body,
or one of the three caught exception kinds (`requests.exceptions.Timeout`,
other `requests.exceptions.RequestException`, `ValueError` from parsing). -/
inductive FetchOutcome where
  | ok (data : WeatherData)
  | timeout
  | requestError (e : String)
  | parseError (e : String)

/-- The fixed timeout passed to `requests.get` in `fetch_weather_data`
(streamlit_app.py line 89: `timeout=10`), in seconds. -/
def fetchTimeoutSeconds : Nat := 10

/-- Embedding of `fetch_weather_data` (streamlit_app.py lines 86-98):
returns the parsed data on success and `none` on every failure; each
caught exception kind is surfaced only as one `st.error` message,
returned here as the second component. -/
def fetch_weather_data (outcome : FetchOutcome) : Option WeatherData × List String :=
  match outcome with
  | .ok data => (some data, [])
  | .timeout => (none, ["Request timed out. Please try again."])
  | .requestError e => (none, ["Error fetching weather data: " ++ e])
  | .parseError e => (none, ["Error parsing weather data: " ++ e])

/-- Embedding of `get_weather_image` minus the unreachable `except`
branch is given further below; `weather_card` (streamlit_app.py lines
100-128) renders, for a present weather payload, the image URL and the
markdown lines, and renders nothing when the payload is absent
(`if weather_data:` guards the whole body). -/
def weather_card (location_name : String) (weather_data : Option WeatherData) :
    List String :=
  match weather_data with
  | none => []
  | some wd =>
    let current := wd.current
    let temp := current.temperature_2m
    let humidity := current.relative_humidity_2m
    let wind_speed := current.wind_speed_10m
    let weather_code := current.weather_code
    let weather_desc := get_weather_description weather_code
    ["### " ++ location_name,
     "**Temperature:** " ++ toString temp ++ "°C",
     "**Weather:** " ++ weather_desc,
     "**Humidity:** " ++ toString humidity ++ "%",
     "**Wind Speed:** " ++ toString wind_speed ++ " km/h",
     "**Status:** " ++ (get_alert_status temp wind_speed).1,
     "_" ++ get_alert_message temp wind_speed ++ "_"]

/-- Claim C6: the weather fetch uses a fixed 10-second timeout; the
three failure kinds each yield `none` together with exactly one
user-visible message, and the three messages are the distinct
timeout / request-error / parse-error texts of the source; the caller
`weather_card` renders nothing for an absent payload. -/
theorem C6_fetch_failure_handling :
    fetchTimeoutSeconds = 10 ∧
    (∀ outcome : FetchOutcome, (∀ d, outcome ≠ FetchOutcome.ok d) →
      (fetch_weather_data outcome).1 = none ∧
      (fetch_weather_data outcome).2.length = 1) ∧
    (∀ e : String,
      fetch_weather_data FetchOutcome.timeout =
        (none, ["Request timed out. Please try again."]) ∧
      fetch_weather_data (FetchOutcome.requestError e) =
        (none, ["Error fetching weather data: " ++ e]) ∧
      fetch_weather_data (FetchOutcome.parseError e) =
        (none, ["Error parsing weather data: " ++ e])) ∧
    (∀ location_name : String, weather_card location_name none = []) := by
  refine ⟨rfl, fun outcome h => ?_, fun e => ⟨rfl, rfl, rfl⟩, fun _ => rfl⟩
  cases outcome with
  | ok d => exact absurd rfl (h d)
  | timeout => exact ⟨rfl, rfl⟩
  | requestError e => exact ⟨rfl, rfl⟩
  | parseError e => exact ⟨rfl, rfl⟩

/-- Witness for C6 at the concrete failure outcome `timeout` (the
not-a-success hypothesis is discharged there). -/
theorem C6_fetch_failure_handling_witness :
    (fetch_weather_data FetchOutcome.timeout).1 = none ∧
    (fetch_weather_data FetchOutcome.timeout).2.length = 1 :=
  C6_fetch_failure_handling.2.1 FetchOutcome.timeout (fun _ h => nomatch h)

/-- One result object of the geocoding API: `name`, coordinates, and the
optional `admin1` / `country` fields (spec §6). An absent field is
`none`; Python's truthiness test `if result.get('admin1'):` also
rejects a present-but-empty string, kept here as an emptiness check. -/
structure GeoResult where
  name : String
  latitude : ℚ
  longitude : ℚ
  admin1 : Option String
  country : Option String

/-- A suggestion as built by `get_location_suggestions`
(streamlit_app.py lines 154-158). -/
structure Suggestion where
  name : String
  lat : ℚ
  lon : ℚ
deriving DecidableEq, Repr

/-- Outcome of the geocoding HTTP request plus parse as the `try` block
of `get_location_suggestions` observes it: a response whose `results`
field is absent (`none`) or a list, or any raised exception (the bare
`except Exception` catches everything). -/
inductive GeoOutcome where
  | ok (results : Option (List GeoResult))
  | error (e : String)

/-- The contribution of one optional field to `location_parts`: the
`if result.get('admin1'): location_parts.append(...)` pattern — a truthy
(present and non-empty) value is appended, anything else adds nothing. -/
def optPart (field : Option String) : List String :=
  match field with
  | none => []
  | some s => if s.isEmpty then [] else [s]

/-- Embedding of `', '.join` on the parts list. -/
def joinParts : List String → String
  | [] => ""
  | [p] => p
  | p :: ps => p ++ ", " ++ joinParts ps

/-- The loop body of `get_location_suggestions` (streamlit_app.py lines
147-159): one suggestion per result, display name joining `name`,
truthy `admin1` and truthy `country` with ", ". -/
def mkSuggestion (result : GeoResult) : Suggestion :=
  let location_parts := [result.name] ++ optPart result.admin1 ++ optPart result.country
  { name := joinParts location_parts
    lat := result.latitude
    lon := result.longitude }

/-- Embedding of `get_location_suggestions` (streamlit_app.py lines
130-164): empty suggestions for a query shorter than 2 characters, for a
falsy `results` field (absent or empty list), and for any raised
exception — which alone also emits one `st.error` message, returned as
the second component. -/
def get_location_suggestions (query : String) (outcome : GeoOutcome) :
    List Suggestion × List String :=
  if query.length < 2 then ([], [])
  else
    match outcome with
    | .error e => ([], ["Error fetching suggestions: " ++ e])
    | .ok none => ([], [])
    | .ok (some results) =>
      if results.isEmpty then ([], [])
      else (results.map mkSuggestion, [])

/-- Claim C7: the suggestion search returns the empty sequence when the
query is shorter than 2 characters, when the request raises an error,
and when the response carries no results (`results` absent or the empty
list) — every failure mode collapses to "no suggestions". -/
theorem C7_suggestions_failure_modes (query : String) (outcome : GeoOutcome) :
    (query.length < 2 → (get_location_suggestions query outcome).1 = []) ∧
    (∀ e, outcome = GeoOutcome.error e →
      (get_location_suggestions query outcome).1 = []) ∧
    (outcome = GeoOutcome.ok none →
      (get_location_suggestions query outcome).1 = []) ∧
    (outcome = GeoOutcome.ok (some []) →
      (get_location_suggestions query outcome).1 = []) := by
  refine ⟨fun hq => ?_, fun e he => ?_, fun he => ?_, fun he => ?_⟩
  · simp [get_location_suggestions, hq]
  · subst he
    by_cases hq : query.length < 2 <;> simp [get_location_suggestions, hq]
  · subst he
    by_cases hq : query.length < 2 <;> simp [get_location_suggestions, hq]
  · subst he
    by_cases hq : query.length < 2 <;> simp [get_location_suggestions, hq]

/-- Witness for C7 at the concrete inputs: the one-character query "L"
with a successful response, and the length-2 query "Le" against each of
the three failure responses. -/
theorem C7_suggestions_failure_modes_witness :
    (get_location_suggestions "L" (GeoOutcome.ok (some []))).1 = [] ∧
    (get_location_suggestions "Le" (GeoOutcome.error "boom")).1 = [] ∧
    (get_location_suggestions "Le" (GeoOutcome.ok none)).1 = [] ∧
    (get_location_suggestions "Le" (GeoOutcome.ok (some []))).1 = [] :=
  ⟨(C7_suggestions_failure_modes "L" (GeoOutcome.ok (some []))).1 (by decide),
   (C7_suggestions_failure_modes "Le" (GeoOutcome.error "boom")).2.1 "boom" rfl,
   (C7_suggestions_failure_modes "Le" (GeoOutcome.ok none)).2.2.1 rfl,
   (C7_suggestions_failure_modes "Le" (GeoOutcome.ok (some []))).2.2.2 rfl⟩

/-- Claim C8: on a successful geocoding response (query at least 2
characters long), the suggestion list is exactly the upstream result
list mapped through the per-result formatter — one entry per result, in
upstream order, no re-ranking — and a result with both optional fields
truthy is formatted "Name, Admin1, Country". -/
theorem C8_success_mapping (query : String) (results : List GeoResult)
    (hq : 2 ≤ query.length) :
    (get_location_suggestions query (GeoOutcome.ok (some results))).1 =
      results.map mkSuggestion ∧
    (∀ (r : GeoResult) (a c : String),
      r.admin1 = some a → ¬ a.isEmpty → r.country = some c → ¬ c.isEmpty →
      (mkSuggestion r).name = r.name ++ ", " ++ a ++ ", " ++ c) := by
  have hq2 : ¬ query.length < 2 := by omega
  constructor
  · cases results with
    | nil => simp [get_location_suggestions, hq2]
    | cons r rs => simp [get_location_suggestions, hq2]
  · intro r a c ha hae hc hce
    rw [Bool.not_eq_true] at hae hce
    simp [mkSuggestion, optPart, joinParts, ha, hc, hae, hce,
      String.append_assoc]

/-- Witness for C8: the spec's scenario — query "Le" (length 2) with one
mocked result carrying both optional fields gives exactly one
suggestion, formatted "Name, Admin1, Country". -/
theorem C8_success_mapping_witness :
    (get_location_suggestions "Le"
        (GeoOutcome.ok (some
          [⟨"Leeds", 53, -1, some "England", some "United Kingdom"⟩]))).1 =
      [⟨"Leeds, England, United Kingdom", 53, -1⟩] ∧
    (mkSuggestion ⟨"Leeds", 53, -1, some "England", some "United Kingdom"⟩).name =
      "Leeds" ++ ", " ++ "England" ++ ", " ++ "United Kingdom" := by
  have h := C8_success_mapping "Le"
    [⟨"Leeds", 53, -1, some "England", some "United Kingdom"⟩] (by decide)
  refine ⟨?_, h.2 ⟨"Leeds", 53, -1, some "England", some "United Kingdom"⟩
    "England" "United Kingdom" rfl (by decide) rfl (by decide)⟩
  rw [h.1]
  decide

/-- Claim C9 (implicit): a geocoding result lacking `admin1` but with a
truthy `country` is displayed "Name, Country"; one lacking both optional
fields is displayed just "Name" — a present field is kept verbatim and
an absent field contributes no separator. -/
theorem C9_optional_fields (r : GeoResult) :
    (∀ c : String, r.admin1 = none → r.country = some c → ¬ c.isEmpty →
      (mkSuggestion r).name = r.name ++ ", " ++ c) ∧
    (r.admin1 = none → r.country = none → (mkSuggestion r).name = r.name) := by
  constructor
  · intro c ha hc hce
    rw [Bool.not_eq_true] at hce
    simp [mkSuggestion, optPart, joinParts, ha, hc, hce]
  · intro ha hc
    simp [mkSuggestion, optPart, joinParts, ha, hc]

/-- Witness for C9 at the concrete results ("Paris", country "France",
no admin1) and ("Atlantis", neither optional field). -/
theorem C9_optional_fields_witness :
    (mkSuggestion ⟨"Paris", 48, 2, none, some "France"⟩).name =
      "Paris" ++ ", " ++ "France" ∧
    (mkSuggestion ⟨"Atlantis", 0, 0, none, none⟩).name = "Atlantis" :=
  ⟨(C9_optional_fields ⟨"Paris", 48, 2, none, some "France"⟩).1
      "France" rfl rfl (by decide),
   (C9_optional_fields ⟨"Atlantis", 0, 0, none, none⟩).2 rfl rfl⟩

/-- Bytes left verbatim by `urllib.parse.quote` with the default
`safe='/'` (what `requests.utils.quote` is): ASCII letters, digits,
`_ . - ~`, and the safe character `/`. -/
def isSafeByte (b : UInt8) : Bool :=
  let n := b.toNat
  (decide (65 ≤ n) && decide (n ≤ 90)) ||
  (decide (97 ≤ n) && decide (n ≤ 122)) ||
  (decide (48 ≤ n) && decide (n ≤ 57)) ||
  decide (n = 45) || decide (n = 46) || decide (n = 95) ||
  decide (n = 126) || decide (n = 47)

/-- Uppercase hexadecimal digit character for a value below 16. -/
def hexDigitChar (n : Nat) : Char :=
  if n < 10 then Char.ofNat (48 + n) else Char.ofNat (55 + n)

/-- Percent-encoding of one UTF-8 byte: kept verbatim when safe,
otherwise `%` followed by two uppercase hex digits. -/
def quoteByte (b : UInt8) : String :=
  if isSafeByte b then String.singleton (Char.ofNat b.toNat)
  else "%" ++ String.singleton (hexDigitChar (b.toNat / 16)) ++
    String.singleton (hexDigitChar (b.toNat % 16))

/-- Embedding of `requests.utils.quote` (urllib.parse.quote with default
safe characters) over the UTF-8 bytes of the string. -/
def urlQuote (s : String) : String :=
  s.toUTF8.toList.foldl (fun acc b => acc ++ quoteByte b) ""

/-- Embedding of the `try` body of `get_weather_image` (streamlit_app.py
lines 76-84): the prompt is built, URL-encoded and spliced into the
pollinations.ai URL; every operation involved is total, so the `except`
branch returning the placeholder URL has no counterpart here. -/
def get_weather_image (location weather_desc : String) : String :=
  let prompt := location ++ " cityscape, " ++ weather_desc ++ ", professional photograph"
  let encoded_prompt := urlQuote prompt
  "https://image.pollinations.ai/prompt/" ++ encoded_prompt ++
    "?width=800&height=600&nologo=true"

/-- Claim C10 (implicit): `get_weather_image` is total — for every pair
of strings it returns the pollinations.ai URL built from the URL-encoded
prompt, and never the placeholder fallback URL (which differs already in
its host part, whatever the encoded prompt is). -/
theorem C10_image_url_total (location weather_desc : String) :
    get_weather_image location weather_desc =
      "https://image.pollinations.ai/prompt/" ++
        urlQuote (location ++ " cityscape, " ++ weather_desc ++
          ", professional photograph") ++
        "?width=800&height=600&nologo=true" ∧
    get_weather_image location weather_desc ≠
      "https://via.placeholder.com/800x600?text=Image+Not+Available" := by
  refine ⟨rfl, fun h => ?_⟩
  have hd := congrArg String.data h
  simp only [get_weather_image, String.data_append, List.append_assoc] at hd
  have ht := congrArg
    (List.take ("https://image.pollinations.ai/prompt/" : String).data.length) hd
  rw [List.take_left] at ht
  revert ht
  decide

/-- Witness for C10 at the concrete input ("Paris", "Clear sky"). -/
theorem C10_image_url_total_witness :
    get_weather_image "Paris" "Clear sky" ≠
      "https://via.placeholder.com/800x600?text=Image+Not+Available" :=
  (C10_image_url_total "Paris" "Clear sky").2
